import Mathlib

/-!
Verification of the live-reload console in src/script.py.

The program multiplexes two event sources (an inotify file descriptor
watching one script file, and stdin) inside an interactive console, and
re-runs the script whenever the file changes.  The definitions below are
a shallow embedding of the program's functions; external calls (select,
os.read on an inotify fd, fcntl.ioctl FIONREAD, runpy.run_path,
pyinotify WatchManager.add_watch) are modelled by their documented
semantics, noted at each definition.
-/

set_option autoImplicit false

namespace LiveReload

/-! ## Inotify queue model and the drain operation -/

/-- A queued inotify event, identified by the fields the kernel
compares when coalescing: watch descriptor, mask, cookie and name. -/
structure InotifyEvent where
  wd : Nat
  mask : Nat
  cookie : Nat
  name : String
deriving DecidableEq, Repr

/-- The IN_MODIFY mask bit. -/
def IN_MODIFY : Nat := 2

/-- The one event shape a single-file IN_MODIFY watch can queue: the wd
of the sole watch, mask IN_MODIFY, cookie 0, empty name (a name is only
attached to events for children of a watched directory, and this watch
is on the file itself). -/
def modifyEvent : InotifyEvent := ⟨1, IN_MODIFY, 0, ""⟩

/-- Size in bytes of an event as read from the fd: the 16-byte
struct inotify_event header plus the name padded to a 16-byte multiple
(zero for the empty name of a single-file watch). -/
def eventSize (e : InotifyEvent) : Nat :=
  16 + 16 * ((e.name.length + 15) / 16)

/-- The kernel's pending-event queue on the inotify fd, oldest first. -/
abbrev InotifyQueue := List InotifyEvent

/-- Kernel enqueue, per inotify(7): if the new event is identical to the
most recent undelivered event (same wd, mask, cookie and name) the two
are coalesced and the queue is unchanged; otherwise the event is
appended. -/
def enqueueEvent (q : InotifyQueue) (e : InotifyEvent) : InotifyQueue :=
  if q.getLast? = some e then q else q ++ [e]

/-- The pending queue after n saves of the watched file since the last
drain, nothing having been read in between: n IN_MODIFY enqueues, each
coalesced against the previous one. -/
def modificationsPending : Nat → InotifyQueue
  | 0 => []
  | n + 1 => enqueueEvent (modificationsPending n) modifyEvent

/-- What the FIONREAD ioctl reports for the inotify fd: the total number
of bytes pending in the event queue. -/
def fionread (q : InotifyQueue) : Nat := q.foldr (fun e b => eventSize e + b) 0

/-- Events os.read copies out: whole events from the front of the queue,
while each next event still fits in the remaining byte budget. -/
def osReadWhileFits : InotifyQueue → Nat → InotifyQueue
  | [], _ => []
  | e :: rest, n =>
    if eventSize e ≤ n then osReadWhileFits rest (n - eventSize e) else e :: rest

/-- os.read(fd, count) on an inotify fd with pending events: Linux
copies out as many whole events as fit in count, but fails the whole
call with OSError EINVAL when the buffer cannot hold even the first
pending event.  (The empty-queue case is never exercised here: the
program reads only after select reported the fd ready.)  Returns the
events still pending, or the error. -/
def osReadEvents (q : InotifyQueue) (n : Nat) : Except String InotifyQueue :=
  match q with
  | [] => Except.ok []
  | e :: _ =>
    if eventSize e ≤ n then Except.ok (osReadWhileFits q n)
    else Except.error ("OSError: EINVAL")

/-- Embedding of _clear_events (src/script.py lines 69-80).  The source
stores the FIONREAD result into a ONE-byte bytearray
(can_read_buf = bytearray([0])); CPython's fcntl.ioctl copies the
mutable buffer into a 1024-byte arena, the ioctl writes a C int there,
and only len(buffer) = 1 byte is copied back, so can_read_buf[0] is the
low byte (little-endian) of the pending byte count.  In every state a
single-file IN_MODIFY watch can reach, coalescing keeps the pending
count at most 16 bytes, so the low byte is the whole count.  (The
rv == -1 branch of the source is dead: fcntl.ioctl raises OSError on
failure instead of returning -1.)  Returns the queue of events still
pending after the call, or the OSError should os.read fail. -/
def clear_events (q : InotifyQueue) : Except String InotifyQueue :=
  let can_read := fionread q % 256
  osReadEvents q can_read

/-! ## The multiplexed line reader (watcher_read) -/

/-- Which of the two fds the select call reported ready (select blocks
until at least one of them is). -/
inductive Readiness where
  | inputOnly
  | changeOnly
  | both
deriving DecidableEq, Repr

/-- How one watcher_read observation ends: a line returned from input(),
a ModuleModifiedError raised after draining, an EOFError propagating out
of input(), or an OSError propagating out of _clear_events before the
raise statement is reached. -/
inductive ReadResult where
  | line (s : String)
  | moduleModified
  | eof
  | oserror (e : String)
deriving DecidableEq, Repr

/-- State seen by watcher_read: the inotify event queue and the lines
still pending on stdin ([] means the next input() hits end-of-file). -/
structure ReaderState where
  inotifyQueue : InotifyQueue
  inputLines : List String
deriving DecidableEq, Repr

/-- Embedding of watcher_read (src/script.py lines 83-103) at one
completed select call.  The source tests `read_fd in rlist` FIRST and
returns input() from that branch, so when both fds are ready the input
branch wins and the inotify queue is left untouched; only when the
change fd alone is ready does it run _clear_events and raise
ModuleModifiedError.  An OSError out of _clear_events (os.read) would
propagate before the raise statement, leaving the queue as the failed
read left it. -/
def watcher_read (ready : Readiness) (st : ReaderState) : ReadResult × ReaderState :=
  match ready with
  | .inputOnly | .both =>
    match st.inputLines with
    | [] => (ReadResult.eof, st)
    | l :: rest => (ReadResult.line l, ⟨st.inotifyQueue, rest⟩)
  | .changeOnly =>
    match clear_events st.inotifyQueue with
    | Except.error e => (ReadResult.oserror e, st)
    | Except.ok q2 => (ReadResult.moduleModified, ⟨q2, st.inputLines⟩)

/-! ## The script runner (get_console) -/

/-- Values held in a Python namespace, kept abstract except for the few
shapes the proofs need. -/
inductive PyValue where
  | int (i : Int)
  | str (s : String)
  | pyNone
deriving DecidableEq, Repr

/-- str() rendering used when the source formats a value with %s. -/
def pyStrOfValue : PyValue → String
  | .int i => toString i
  | .str s => s
  | .pyNone => "None"

/-- A Python module namespace: an ordered association list, insertion
order preserved as dict does. -/
abbrev PyNamespace := List (String × PyValue)

/-- Python dict assignment d[k] = v: overwrites the value at an existing
key in place, otherwise appends the new key at the end. -/
def dictInsert (d : PyNamespace) (kv : String × PyValue) : PyNamespace :=
  if d.any (fun e => e.1 == kv.1) then
    d.map (fun e => if e.1 == kv.1 then (e.1, kv.2) else e)
  else d ++ [kv]

/-- Executing a sequence of top-level assignments, in order, over an
initial module namespace. -/
def dictUpdate (d : PyNamespace) (bs : List (String × PyValue)) : PyNamespace :=
  bs.foldl dictInsert d

/-- The implicit module globals runpy.run_path seeds into the executed
namespace before the script runs, per runpy's documented behaviour for
a plain file path: __name__ is the default run_name, __file__ is the
path, and __cached__, __doc__, __loader__, __spec__ are None,
__package__ is the empty string, __builtins__ is the builtins module
(modelled as an opaque string). -/
def runpyImplicitGlobals (path : String) : PyNamespace :=
  [("__name__", PyValue.str "<run_path>"),
   ("__file__", PyValue.str path),
   ("__cached__", PyValue.pyNone),
   ("__doc__", PyValue.pyNone),
   ("__loader__", PyValue.pyNone),
   ("__spec__", PyValue.pyNone),
   ("__package__", PyValue.str ""),
   ("__builtins__", PyValue.str "<module builtins>")]

/-- Behaviour of the target script when executed: it either completes,
having performed the given top-level assignments in order, or raises
SystemExit (args tuple modelled as a list), or raises any other
BaseException (its description).  In Python every raisable object is a
BaseException, and every non-SystemExit one falls into the third case,
KeyboardInterrupt and GeneratorExit included. -/
inductive ScriptOutcome where
  | completes (bindings : List (String × PyValue))
  | systemExit (args : List PyValue)
  | otherException (description : String)
deriving DecidableEq, Repr

/-- Text of the error line printed when the script raised SystemExit
with at least one argument: the source formats
%r exited with code %s with (module_name, e.args[0]); %r quoting of the
path is elided here. -/
def exitedWithCodeMsg (path : String) (a : PyValue) : String :=
  path ++ " exited with code " ++ pyStrOfValue a

/-- Text of the error line printed when the script raised any other
BaseException: the source formats %r failed with %r with
(module_name, e); quoting is elided here. -/
def failedWithMsg (path : String) (d : String) : String :=
  path ++ " failed with " ++ d

/-- What a call to get_console produces: either a console holding a
namespace, together with the error lines printed via print_error while
building it, or a Python exception escaping get_console itself. -/
inductive GetConsoleResult where
  | console (ns : PyNamespace) (reported : List String)
  | pythonError (e : String)
deriving DecidableEq, Repr

/-- Embedding of get_console (src/script.py lines 120-135).  context
starts as the empty dict and is reassigned only if runpy.run_path
returns, so on any exception it stays empty.  The SystemExit handler
formats e.args[0]; when the script used a bare sys.exit() the args
tuple is empty and e.args[0] raises IndexError, which is not caught by
anything in get_console and escapes to the caller.  The second handler
is `except BaseException`, so every non-SystemExit exception is caught
and reported.  run_path on completion returns the module globals: the
implicit globals it seeded, updated by the script's own assignments. -/
def get_console (path : String) (beh : ScriptOutcome) : GetConsoleResult :=
  match beh with
  | .completes bs =>
    GetConsoleResult.console (dictUpdate (runpyImplicitGlobals path) bs) []
  | .systemExit [] =>
    GetConsoleResult.pythonError ("IndexError: tuple index out of range")
  | .systemExit (a :: _) =>
    GetConsoleResult.console [] [exitedWithCodeMsg path a]
  | .otherException d =>
    GetConsoleResult.console [] [failedWithMsg path d]

/-- The namespace of the console get_console returned, when it returned
one. -/
def consoleNamespace : GetConsoleResult → Option PyNamespace
  | GetConsoleResult.console ns _ => some ns
  | GetConsoleResult.pythonError _ => none

/-- The error-status lines printed during the get_console call. -/
def reportedErrors : GetConsoleResult → List String
  | GetConsoleResult.console _ r => r
  | GetConsoleResult.pythonError _ => []

/-- The exception, if any, that escaped get_console to its caller. -/
def escapedException : GetConsoleResult → Option String
  | GetConsoleResult.console _ _ => none
  | GetConsoleResult.pythonError e => some e

/-- Whether get_console recovered from a script failure the way the
spec describes: a console over the empty namespace, with the failure
reported exactly once. -/
def startsEmptyConsoleOneReport : GetConsoleResult → Bool
  | GetConsoleResult.console ns msgs => ns.isEmpty && msgs.length == 1
  | GetConsoleResult.pythonError _ => false

/-! ## Watcher setup (open_watcher, pyinotify add_watch) -/

/-- The filesystem, as far as watch setup and run_path care: the list of
paths that exist and can be watched. -/
abbrev FileSystem := List String

/-- pyinotify WatchManager.add_watch, modelled from that library's
documented behaviour: its quiet parameter defaults to True, and with
quiet=True a path that cannot be watched is logged via log.error and
recorded with a NEGATIVE watch descriptor — no exception is raised;
only quiet=False raises WatchManagerError.  The source calls add_watch
with no quiet argument (src/script.py line 62). -/
def add_watch (quiet : Bool) (fs : FileSystem) (path : String) : Except String Int :=
  if fs.contains path then Except.ok 1
  else if quiet then Except.ok (-1)
  else Except.error ("WatchManagerError: cannot watch " ++ path)

/-- runpy.run_path against the filesystem: a missing path raises
FileNotFoundError before any script code runs; an existing path runs
the script, whose behaviour is the given outcome. -/
def run_path_fs (fs : FileSystem) (path : String) (beh : ScriptOutcome) : ScriptOutcome :=
  if fs.contains path then beh
  else ScriptOutcome.otherException ("FileNotFoundError")

/-- How far interact's startup gets: either an exception ends the
process before any console exists, or the first console is constructed
(wd is what pyinotify recorded for the path; negative means no watch
was actually established). -/
inductive Startup where
  | exitedBeforeConsole (diagnostic : String)
  | consoleUp (wd : Int) (console : GetConsoleResult)
deriving DecidableEq, Repr

/-- Embedding of interact's startup path (src/script.py lines 145-146
together with open_watcher, lines 57-66): open_watcher builds a
WatchManager, calls add_watch with the default quiet=True and yields
the inotify fd; interact then immediately calls get_console.  The only
way the process could stop before a console is constructed is an
exception out of add_watch, and quiet=True never raises one. -/
def interactStartup (fs : FileSystem) (path : String) (beh : ScriptOutcome) : Startup :=
  match add_watch true fs path with
  | Except.error e => Startup.exitedBeforeConsole e
  | Except.ok wd => Startup.consoleUp wd (get_console path (run_path_fs fs path beh))

/-! ## The driver loop (interact) -/

/-- How one console.interact session ends.  LiveReloadInterpreter's
raw_input catches EOFError and calls sys.exit(0), so InteractiveConsole
.interact never sees EOFError and never returns normally here; the only
ways out of a session are the exceptions it lets propagate:
ModuleModifiedError from watcher_read — `modified reload` carries the
behaviour the re-saved script will have when the handler re-runs it —
SystemExit(0) from raw_input at end-of-input, or any other unhandled
Python exception (pythonFault). -/
inductive SessionEnd where
  | modified (reload : ScriptOutcome)
  | endOfInput
  | pythonFault (desc : String)
deriving DecidableEq, Repr

/-- What finally unwinds out of interact when the run terminates. -/
inductive UnwindKind where
  | systemExit (code : Nat)
  | exception (desc : String)
deriving DecidableEq, Repr

/-- Exit status of the process once an unwind reaches top level:
SystemExit(code) makes the interpreter exit with that code; any other
exception prints a traceback and exits 1. -/
def processStatus : UnwindKind → Nat
  | UnwindKind.systemExit c => c
  | UnwindKind.exception _ => 1

/-- Embedding of the `while "my guitar gently weeps"` loop inside
interact's with-block (src/script.py lines 148-156), run over the
successive session endings.  The loop condition is a truthy constant
and the body has no break, so the loop is left only by an exception:
ModuleModifiedError is caught by the driver, which writes a newline,
prints the Reloading notice and calls get_console again on the same
module_name and inotify fd; if that get_console returns a console the
loop continues, but if it raises (the re-saved script requested exit
with no status code, so e.args[0] raised IndexError), the exception
escapes the except block and unwinds — after the notice was printed and
the call made.  Every other exception out of a session unwinds
directly.  Returns none when the session list is exhausted with the
loop still running, otherwise the unwind kind, the number of Reloading
notices printed, and the (module_name, fd) arguments of the get_console
calls made inside the loop, in order. -/
def guitarLoop (path : String) (fd : Nat) :
    List SessionEnd → Option (UnwindKind × Nat × List (String × Nat))
  | [] => none
  | SessionEnd.endOfInput :: _ => some (UnwindKind.systemExit 0, 0, [])
  | SessionEnd.pythonFault d :: _ => some (UnwindKind.exception d, 0, [])
  | SessionEnd.modified beh :: rest =>
    match get_console path beh with
    | GetConsoleResult.pythonError e =>
      some (UnwindKind.exception e, 1, [(path, fd)])
    | GetConsoleResult.console _ _ =>
      (guitarLoop path fd rest).map (fun p => (p.1, p.2.1 + 1, (path, fd) :: p.2.2))

/-- Observables of one terminated run of interact. -/
structure InteractRun where
  unwind : UnwindKind
  reloadNotices : Nat
  scriptRuns : List (String × Nat)
  watcherOpens : Nat
  watcherCloses : Nat
  exitMsgWrites : Nat
deriving DecidableEq, Repr

/-- Embedding of interact (src/script.py lines 138-161): one
open_watcher with-block (its contextmanager finally runs wm.close() on
every way out, normal or exceptional), the initial get_console call on
(module_name, fd), then the loop.  Every termination of interact is an
exception unwinding out of the loop and through the with-block, because
the loop cannot complete normally; the exit-message lines after the
with-block (lines 158-161) run only on normal completion of the loop,
so they are never reached and no exit message is written.  none means
the given sessions did not terminate the run. -/
def interact (path : String) (fd : Nat) (sessions : List SessionEnd) :
    Option InteractRun :=
  (guitarLoop path fd sessions).map (fun p =>
    ⟨p.1, p.2.1, (path, fd) :: p.2.2, 1, 1, 0⟩)

/-- What the driver's ModuleModifiedError handler adds to a run: one
more Reloading notice and one more get_console call on the same path
and fd, everything else unchanged. -/
def bumpReload (path : String) (fd : Nat) (r : InteractRun) : InteractRun :=
  { r with reloadNotices := r.reloadNotices + 1,
           scriptRuns := (path, fd) :: r.scriptRuns }

/-! ## Helper lemmas -/

/-- Coalescing collapses any positive number of consecutive identical
IN_MODIFY events into a single pending event. -/
theorem modificationsPending_succ :
    ∀ n : Nat, modificationsPending (n + 1) = [modifyEvent] := by
  intro n
  induction n with
  | zero => rfl
  | succ n ih =>
    rw [modificationsPending, ih]
    rfl

/-- Inserting a key not already present appends it. -/
theorem dictInsert_fresh (d : PyNamespace) (kv : String × PyValue)
    (h : ∀ e ∈ d, e.1 ≠ kv.1) : dictInsert d kv = d ++ [kv] := by
  have hany : d.any (fun e => e.1 == kv.1) = false := by
    rw [List.any_eq_false]
    intro e he
    simpa using h e he
  simp [dictInsert, hany]

/-- Running a sequence of assignments whose keys are pairwise distinct
and all absent from the initial namespace just appends them in order. -/
theorem dictUpdate_of_fresh (bs : List (String × PyValue)) :
    ∀ d : PyNamespace,
      (∀ kv ∈ bs, ∀ e ∈ d, e.1 ≠ kv.1) →
      (bs.map Prod.fst).Nodup →
      dictUpdate d bs = d ++ bs := by
  induction bs with
  | nil => intro d _ _; simp [dictUpdate]
  | cons kv bs ih =>
    intro d hfresh hnodup
    have hins : dictInsert d kv = d ++ [kv] :=
      dictInsert_fresh d kv (fun e he => hfresh kv (by simp) e he)
    have hstep : dictUpdate d (kv :: bs) = dictUpdate (d ++ [kv]) bs := by
      simp [dictUpdate, hins]
    have hcons : (kv.1 :: bs.map Prod.fst).Nodup := by simpa using hnodup
    have hnodup2 : (bs.map Prod.fst).Nodup := (List.nodup_cons.mp hcons).2
    have hnotin : kv.1 ∉ bs.map Prod.fst := (List.nodup_cons.mp hcons).1
    have hfresh2 : ∀ kv2 ∈ bs, ∀ e ∈ d ++ [kv], e.1 ≠ kv2.1 := by
      intro kv2 h2 e he
      rcases List.mem_append.mp he with h | h
      · exact hfresh kv2 (List.mem_cons_of_mem _ h2) e h
      · have heq : e = kv := by simpa using h
        subst heq
        intro hEq
        exact hnotin (hEq ▸ List.mem_map_of_mem Prod.fst h2)
    rw [hstep, ih (d ++ [kv]) hfresh2 hnodup2]
    simp

/-- Every get_console call recorded by the loop uses the same
module_name and fd it was entered with. -/
theorem guitarLoop_runs_same (path : String) (fd : Nat) :
    ∀ sessions : List SessionEnd,
      Option.all (fun p => List.all p.2.2 (fun pr => pr == (path, fd)))
        (guitarLoop path fd sessions) = true := by
  intro sessions
  induction sessions with
  | nil => rfl
  | cons s rest ih =>
    cases s with
    | endOfInput => rfl
    | pythonFault d => rfl
    | modified beh =>
      cases hc : get_console path beh with
      | pythonError e => simp [guitarLoop, hc]
      | console ns msgs =>
        cases h : guitarLoop path fd rest with
        | none => simp [guitarLoop, hc, h]
        | some p =>
          rw [h] at ih
          simp only [Option.all] at ih
          simp [guitarLoop, hc, h, ih]

/-- The loop over reload sessions whose re-runs all return consoles,
followed by end-of-input: one reload per session, then SystemExit 0. -/
theorem guitarLoop_good_reloads_then_eof (path : String) (fd : Nat) :
    ∀ behs : List ScriptOutcome,
      (∀ b ∈ behs, escapedException (get_console path b) = none) →
      guitarLoop path fd
          (behs.map SessionEnd.modified ++ [SessionEnd.endOfInput]) =
        some (UnwindKind.systemExit 0, behs.length,
              List.replicate behs.length (path, fd)) := by
  intro behs
  induction behs with
  | nil => intro _; rfl
  | cons b behs ih =>
    intro h
    have hb : escapedException (get_console path b) = none := h b (by simp)
    cases hc : get_console path b with
    | pythonError e =>
      rw [hc] at hb
      simp [escapedException] at hb
    | console ns msgs =>
      have hrest := ih (fun x hx => h x (List.mem_cons_of_mem _ hx))
      simp [guitarLoop, hc, hrest, List.replicate_succ]

/-- The loop over reload sessions whose re-runs all return consoles,
with no end-of-input: the run never terminates. -/
theorem guitarLoop_good_reloads_no_eof (path : String) (fd : Nat) :
    ∀ behs : List ScriptOutcome,
      (∀ b ∈ behs, escapedException (get_console path b) = none) →
      guitarLoop path fd (behs.map SessionEnd.modified) = none := by
  intro behs
  induction behs with
  | nil => intro _; rfl
  | cons b behs ih =>
    intro h
    have hb : escapedException (get_console path b) = none := h b (by simp)
    cases hc : get_console path b with
    | pythonError e =>
      rw [hc] at hb
      simp [escapedException] at hb
    | console ns msgs =>
      have hrest := ih (fun x hx => h x (List.mem_cons_of_mem _ hx))
      simp [guitarLoop, hc, hrest]

/-! ## Claims -/

/-- Claim C1: for every N ≥ 1 file saves pending since the last drain
(written N = n + 1), the kernel's coalescing of identical successive
IN_MODIFY events — all events of a single-file IN_MODIFY watch are
identical — leaves exactly one 16-byte event in the queue, so the
one-byte FIONREAD buffer holds the whole count, one _clear_events call
drains the queue to empty, and the one watcher_read observation raises
exactly one ModuleModifiedError; with the queue empty the change fd is
no longer readable, so no second abort can fire before a new save. -/
theorem c1_drain_empties_pending_queue :
    ∀ (n : Nat) (ls : List String),
      clear_events (modificationsPending (n + 1)) = Except.ok [] ∧
      watcher_read Readiness.changeOnly ⟨modificationsPending (n + 1), ls⟩ =
        (ReadResult.moduleModified, ⟨[], ls⟩) := by
  intro n ls
  rw [modificationsPending_succ]
  exact ⟨rfl, rfl⟩

/-- Claim C2 is false at this input: with one pending change event and
one pending input line, both fds ready, watcher_read returns the input
line (consuming it, queue untouched) instead of draining the queue and
raising ModuleModifiedError — the source checks read_fd before
inotify_fd. -/
theorem c2_simultaneous_ready_returns_input :
    watcher_read Readiness.both ⟨[modifyEvent], ["x + 1"]⟩ =
      (ReadResult.line "x + 1", ⟨[modifyEvent], []⟩) ∧
    watcher_read Readiness.both ⟨[modifyEvent], ["x + 1"]⟩ ≠
      (ReadResult.moduleModified, ⟨[], ["x + 1"]⟩) := by
  refine ⟨by decide, by decide⟩

/-- Claim C2 amended: when the change source and the input source are
ready simultaneously, the INPUT source takes priority — the pending
line is returned and the change events stay pending undrained; only on
a wait where the change source alone is ready does the reader drain the
queue (whenever the read succeeds) and raise the abort, the pending
input untouched. -/
theorem c2_input_priority_when_both_ready :
    (∀ (q : InotifyQueue) (l : String) (rest : List String),
        watcher_read Readiness.both ⟨q, l :: rest⟩ =
          (ReadResult.line l, ⟨q, rest⟩)) ∧
    (∀ (q q2 : InotifyQueue) (ls : List String),
        clear_events q = Except.ok q2 →
        watcher_read Readiness.changeOnly ⟨q, ls⟩ =
          (ReadResult.moduleModified, ⟨q2, ls⟩)) := by
  refine ⟨fun q l rest => rfl, fun q q2 ls h => ?_⟩
  simp [watcher_read, h]

/-- Witness for c2_input_priority_when_both_ready at one coalesced
pending event, whose drain succeeds and empties the queue. -/
theorem c2_priority_witness :
    watcher_read Readiness.changeOnly ⟨[modifyEvent], ["x + 1"]⟩ =
      (ReadResult.moduleModified, ⟨[], ["x + 1"]⟩) :=
  c2_input_priority_when_both_ready.2 [modifyEvent] [] ["x + 1"] rfl

/-- Claim C3 is false on the code: for a path that does not exist,
pyinotify's add_watch (called with its default quiet=True) records
wd = -1 and raises nothing, so interact proceeds; runpy.run_path then
raises FileNotFoundError, which get_console's BaseException handler
catches and reports, and a Console over the empty namespace IS
constructed — the process does not exit, and no watch is in place. -/
theorem c3_missing_path_still_starts_console :
    interactStartup [] ("missing.py") (ScriptOutcome.completes []) =
      Startup.consoleUp (-1)
        (GetConsoleResult.console []
          [failedWithMsg ("missing.py") ("FileNotFoundError")]) := by
  rfl

/-- Claim C4 is false in one conjunct: at end-of-input the run does
terminate with SystemExit(0), the watcher is closed exactly once and no
reload follows, but interact does not return normally and writes NO
exit message (exitMsgWrites = 0) — the claim says it returns after
emitting the exit message. -/
theorem c4_no_exit_message_on_eof :
    interact ("m.py") 3 [SessionEnd.endOfInput] =
      some ⟨UnwindKind.systemExit 0, 0, [(("m.py"), 3)], 1, 1, 0⟩ := by
  rfl

/-- Claim C4 amended: on end-of-input (after any number of reload
cycles whose re-run scripts let get_console return a console) raw_input
turns EOFError into sys.exit(0); the SystemExit(0) unwinds through
interact, the with-block closes the Watcher exactly once, no further
reload or script run is attempted, and the process terminates with
status 0 — but interact does not return normally and the exit message
is never emitted (the exit-message lines sit after the with-block and
are unreachable). -/
theorem c4_eof_closes_watcher_exits_zero :
    ∀ (path : String) (fd : Nat) (behs : List ScriptOutcome),
      (∀ b ∈ behs, escapedException (get_console path b) = none) →
      interact path fd
          (behs.map SessionEnd.modified ++ [SessionEnd.endOfInput]) =
        some ⟨UnwindKind.systemExit 0, behs.length,
              List.replicate (behs.length + 1) (path, fd), 1, 1, 0⟩ ∧
      processStatus (UnwindKind.systemExit 0) = 0 := by
  intro path fd behs h
  refine ⟨?_, rfl⟩
  rw [interact, guitarLoop_good_reloads_then_eof path fd behs h]
  simp [List.replicate_succ]

/-- Witness for c4_eof_closes_watcher_exits_zero: one reload whose
re-run completes without bindings, then end-of-input. -/
theorem c4_eof_witness :
    interact ("m.py") 3
        ([ScriptOutcome.completes []].map SessionEnd.modified ++
          [SessionEnd.endOfInput]) =
      some ⟨UnwindKind.systemExit 0, 1, List.replicate 2 (("m.py"), 3),
            1, 1, 0⟩ ∧
    processStatus (UnwindKind.systemExit 0) = 0 :=
  c4_eof_closes_watcher_exits_zero ("m.py") 3 [ScriptOutcome.completes []]
    (by decide)

/-- Claim C5 is false at this input: a script that runs to completion
defining exactly x = 1 yields a console namespace that also contains
the module globals runpy seeded (__name__, __file__, ...), so it is not
equal to the script's own bindings alone. -/
theorem c5_namespace_has_implicit_globals :
    consoleNamespace
        (get_console ("m.py") (ScriptOutcome.completes [("x", PyValue.int 1)])) ≠
      some [("x", PyValue.int 1)] := by
  decide

/-- Claim C5 amended: for every script that runs to completion having
defined bindings B (distinct identifiers, none of them one of the
implicit module-global names), the Console's namespace is exactly the
implicit globals runpy seeds followed by B in definition order: every
identifier the script defined is present with the script's value, and
the only other identifiers are those implicit module globals. -/
theorem c5_namespace_equals_bindings_plus_implicit
    (path : String) (bs : List (String × PyValue))
    (h1 : ∀ kv ∈ bs, ∀ e ∈ runpyImplicitGlobals path, e.1 ≠ kv.1)
    (h2 : (bs.map Prod.fst).Nodup) :
    consoleNamespace (get_console path (ScriptOutcome.completes bs)) =
      some (runpyImplicitGlobals path ++ bs) := by
  have hfresh : ∀ kv ∈ bs, ∀ e ∈ runpyImplicitGlobals path, e.1 ≠ kv.1 := h1
  rw [get_console, consoleNamespace,
      dictUpdate_of_fresh bs (runpyImplicitGlobals path) hfresh h2]

/-- Witness for c5_namespace_equals_bindings_plus_implicit at the
concrete script binding x = 1. -/
theorem c5_namespace_witness :
    consoleNamespace
        (get_console ("m.py") (ScriptOutcome.completes [("x", PyValue.int 1)])) =
      some (runpyImplicitGlobals ("m.py") ++ [("x", PyValue.int 1)]) :=
  c5_namespace_equals_bindings_plus_implicit ("m.py") [("x", PyValue.int 1)]
    (by decide) (by decide)

/-- Claim C6 is false on the code: a script that requests termination
with NO status code (bare sys.exit() or raise SystemExit, empty args
tuple) reaches the SystemExit handler, whose e.args[0] raises
IndexError; that IndexError escapes get_console to its caller instead
of being classified and reported. -/
theorem c6_bare_system_exit_escapes_get_console :
    escapedException (get_console ("m.py") (ScriptOutcome.systemExit [])) =
      some ("IndexError: tuple index out of range") := by
  rfl

/-- Claim C7 is false at this input: for the failure class "script
requested exit" with an empty args tuple, the Console does not start at
all — get_console is exited by the handler's own IndexError, with zero
error-status lines printed. -/
theorem c7_bare_exit_console_not_started :
    startsEmptyConsoleOneReport
        (get_console ("m.py") (ScriptOutcome.systemExit [])) = false := by
  rfl

/-- Claim C7 amended: whenever the Script Runner fails with a requested
exit that carries an explicit status code, or with any uncaught
non-SystemExit fault, the Console still starts with the empty mapping
as its namespace and the failure is reported via the error-status line
exactly once. -/
theorem c7_failure_starts_empty_console_one_report :
    (∀ (path : String) (a : PyValue) (args : List PyValue),
        startsEmptyConsoleOneReport
          (get_console path (ScriptOutcome.systemExit (a :: args))) = true) ∧
    (∀ (path d : String),
        startsEmptyConsoleOneReport
          (get_console path (ScriptOutcome.otherException d)) = true) := by
  exact ⟨fun path a args => rfl, fun path d => rfl⟩

/-- Claim C8 is false at this input: the console aborts on a file
change, the driver prints the Reloading notice and re-runs the script,
but the re-saved script requests exit with no status code, so
get_console raises IndexError inside the except ModuleModifiedError
block; no new Console is built, the exception unwinds, and the Driver
Loop exits with status 1 — the abort DID cause the Driver Loop itself
to exit. -/
theorem c8_reload_bare_exit_kills_driver :
    interact ("m.py") 3 [SessionEnd.modified (ScriptOutcome.systemExit [])] =
      some ⟨UnwindKind.exception ("IndexError: tuple index out of range"), 1,
            [(("m.py"), 3), (("m.py"), 3)], 1, 1, 0⟩ ∧
    processStatus
        (UnwindKind.exception ("IndexError: tuple index out of range")) = 1 := by
  refine ⟨rfl, rfl⟩

/-- Claim C8 amended: when a running Console terminates with
ModuleModifiedError, the driver emits a reloading notice and re-runs
the Script Runner on the same path and fd; whenever that get_console
call returns a console — every case except a re-saved script
requesting exit with no status code — a new Console is constructed and
the prompt loop resumes, so runs made only of such aborts never
terminate the Driver Loop; but when the re-run makes get_console raise,
the IndexError escapes the handler and the abort does exit the Driver
Loop. -/
theorem c8_abort_reloads_and_continues_unless_reload_raises :
    (∀ (path : String) (fd : Nat) (beh : ScriptOutcome) (rest : List SessionEnd),
        escapedException (get_console path beh) = none →
        interact path fd (SessionEnd.modified beh :: rest) =
          Option.map (bumpReload path fd) (interact path fd rest)) ∧
    (∀ (path : String) (fd : Nat) (behs : List ScriptOutcome),
        (∀ b ∈ behs, escapedException (get_console path b) = none) →
        interact path fd (behs.map SessionEnd.modified) = none) ∧
    (∀ (path : String) (fd : Nat) (rest : List SessionEnd),
        interact path fd
            (SessionEnd.modified (ScriptOutcome.systemExit []) :: rest) =
          some ⟨UnwindKind.exception ("IndexError: tuple index out of range"),
                1, [(path, fd), (path, fd)], 1, 1, 0⟩) := by
  refine ⟨?_, ?_, ?_⟩
  · intro path fd beh rest hb
    cases hc : get_console path beh with
    | pythonError e =>
      rw [hc] at hb
      simp [escapedException] at hb
    | console ns msgs =>
      cases h : guitarLoop path fd rest with
      | none => simp [interact, guitarLoop, hc, h]
      | some p => simp [interact, guitarLoop, hc, h, bumpReload]
  · intro path fd behs h
    rw [interact, guitarLoop_good_reloads_no_eof path fd behs h]
    rfl
  · intro path fd rest
    rfl

/-- Witness for c8_abort_reloads_and_continues_unless_reload_raises:
an abort whose re-run completes adds one notice and one script run to
the rest of the run. -/
theorem c8_abort_witness :
    interact ("m.py") 3
        [SessionEnd.modified (ScriptOutcome.completes []),
         SessionEnd.endOfInput] =
      Option.map (bumpReload ("m.py") 3)
        (interact ("m.py") 3 [SessionEnd.endOfInput]) :=
  c8_abort_reloads_and_continues_unless_reload_raises.1 ("m.py") 3
    (ScriptOutcome.completes []) [SessionEnd.endOfInput] (by decide)

/-- Claim C9: every terminated run of interact — whatever the sessions,
including ones ended by an unhandled fault — opened the watcher exactly
once, closed it exactly once (the with-block's finally runs on every
exit path), and every get_console call it made used that same
(module_name, fd) pair. -/
theorem c9_single_watcher_lifecycle :
    ∀ (path : String) (fd : Nat) (sessions : List SessionEnd),
      Option.all
        (fun r => (r.watcherOpens == 1 && r.watcherCloses == 1) &&
          List.all r.scriptRuns (fun pr => pr == (path, fd)))
        (interact path fd sessions) = true := by
  intro path fd sessions
  have h := guitarLoop_runs_same path fd sessions
  cases hg : guitarLoop path fd sessions with
  | none => simp [interact, hg]
  | some p =>
    rw [hg] at h
    simp only [Option.all] at h
    simp [interact, hg, h]

/-- Claim C10: every exception the target script raises other than
SystemExit — the source's second handler is `except BaseException`, so
KeyboardInterrupt and the other BaseException subclasses included — is
caught by get_console, reported as a failure exactly once, and
get_console still returns a console whose namespace is the empty
mapping; nothing escapes to the caller. -/
theorem c10_non_system_exit_caught :
    ∀ (path d : String),
      consoleNamespace (get_console path (ScriptOutcome.otherException d)) =
          some [] ∧
      reportedErrors (get_console path (ScriptOutcome.otherException d)) =
          [failedWithMsg path d] ∧
      escapedException (get_console path (ScriptOutcome.otherException d)) =
          none := by
  exact fun path d => ⟨rfl, rfl, rfl⟩

end LiveReload
